import Mathlib

/-!
Verification development for the zikrr concurrent repository synchronization
engine (`internal/git/clone.go` and `internal/git/repository.go`).

The Go code is shallowly embedded: every external effect (filesystem checks,
`git` subprocess invocations, `os.RemoveAll`, `os.MkdirAll`, ...) is an oracle
value carried in an environment structure, and each function returns its Go
result together with the ordered list of observable events it performs
(progress-callback invocations, sleeps, git invocations, removals).  Goroutine
scheduling for the bounded worker pool is embedded as a small-step transition
relation on an abstract pool state.
-/

namespace Zikrr

/-- Char-list analogue of Go `strings.HasPrefix` restricted to what
`strings.Contains` needs: `leadsWith sub l` holds when `sub` occurs at the
head of `l`. -/
def leadsWith : List Char → List Char → Bool
  | [], _ => true
  | _ :: _, [] => false
  | a :: as, b :: bs => a == b && leadsWith as bs

/-- Char-list analogue of Go `strings.Contains`: `sub` occurs contiguously
somewhere in the list. -/
def charsContain (sub : List Char) : List Char → Bool
  | [] => leadsWith sub []
  | c :: t => leadsWith sub (c :: t) || charsContain sub t

/-- Embedding of Go `strings.Contains(s, sub)`.  The needles used by the code
("Updating", "Skipping") are pure ASCII, for which byte-level and char-level
containment coincide. -/
def goContains (s sub : String) : Bool :=
  charsContain sub.data s.data

/-- Embedding of Go `error` values as produced by `fmt.Errorf`.
`wrapped pre inner post` is `fmt.Errorf(pre ++ "%w" ++ post, inner)`;
`wrappedNil pre post` is the same with a nil operand for `%w` (the resulting
error is non-nil but unwraps to nil). -/
inductive GoErr
  | base (msg : String)
  | wrapped (pre : String) (inner : GoErr) (post : String)
  | wrappedNil (pre : String) (post : String)
deriving DecidableEq, Repr

/-- Go `Error()` string of an embedded error (`%w` with a nil operand renders
as `%!w(<nil>)`). -/
def GoErr.render : GoErr → String
  | .base m => m
  | .wrapped pre inner post => pre ++ inner.render ++ post
  | .wrappedNil pre post => pre ++ "%!w(<nil>)" ++ post

/-- Go `errors.Unwrap` on an embedded error. -/
def GoErr.unwrap : GoErr → Option GoErr
  | .base _ => none
  | .wrapped _ inner _ => some inner
  | .wrappedNil _ _ => none

/-- `ExistingRepoStrategy` from clone.go: how to handle existing repositories. -/
inductive ExistingRepoStrategy
  | skipExisting
  | overwriteExisting
  | fetchOnly
deriving DecidableEq, Repr

/-- `CloneOptions` from clone.go.  Timeouts are kept in seconds; the
progress callback is replaced by the event trace returned by each function. -/
structure CloneOptions where
  url : String
  targetDir : String
  branch : String
  maxRetries : Int
  connTimeoutSecs : Nat
  cloneTimeoutSecs : Nat
  existingRepo : ExistingRepoStrategy
deriving Repr

/-- `DefaultCloneOptions()` from clone.go: 3 retries, 60s connection timeout,
10 minute clone timeout, skip-existing policy. -/
def DefaultCloneOptions : CloneOptions :=
  { url := ""
    targetDir := ""
    branch := ""
    maxRetries := 3
    connTimeoutSecs := 60
    cloneTimeoutSecs := 600
    existingRepo := .skipExisting }

/-- `CloneResult` from clone.go. -/
structure CloneResult where
  repoURL : String
  success : Bool
  error : Option GoErr
deriving Repr

/-- Observable events of one executor run, in program order: progress-callback
invocations, backoff sleeps (in seconds), `git clone` / `git fetch` /
`git reset` subprocess invocations, and `os.RemoveAll` calls. -/
inductive Event
  | progress (msg : String)
  | sleep (seconds : Nat)
  | gitClone (branch url dir : String)
  | gitFetch
  | gitReset (ref : String)
  | removeAll (dir : String)
deriving DecidableEq, Repr

/-- Oracle for the external effects of `fetchAndUpdate`: results of
`os.Getwd`, `os.Chdir`, `git fetch --all --prune` and `git reset --hard`.
For the two git commands a failure carries the error and the captured
combined output. -/
structure FetchEnv where
  getwdErr : Option GoErr
  chdirErr : Option GoErr
  fetchErr : Option (GoErr × String)
  resetErr : Option (GoErr × String)

/-- Oracle for the external effects of `handleExistingRepo`: whether
`isGitRepo(targetDir)` holds, the result of `os.RemoveAll`, and the
fetch-and-update oracle. -/
structure ResolverEnv where
  isGitRepo : Bool
  removeErr : Option GoErr
  fetch : FetchEnv

/-- Oracle for one full `CloneRepository` run: the `os.MkdirAll` result, the
resolver oracle, and per-attempt results of the `git clone` subprocess
(`none` = success, `some (err, output)` = failure with captured output). -/
structure CloneEnv where
  mkdirErr : Option GoErr
  resolver : ResolverEnv
  cloneErr : Nat → Option (GoErr × String)

def skipMsg (url : String) : String :=
  "Skipping existing repository: " ++ url

def removeMsg (dir : String) : String :=
  "Removing existing repository: " ++ dir

def updateMsg (url : String) : String :=
  "Updating existing repository: " ++ url

def updatedMsg (url : String) : String :=
  "Successfully updated repository: " ++ url

def clonedMsg (url : String) : String :=
  "Successfully cloned " ++ url

/-- Rendering of a whole-second `time.Duration` by Go's `%v`, for the values
that can appear as backoff durations. -/
def goDuration (secs : Nat) : String :=
  if secs < 60 then toString secs ++ "s"
  else if secs < 3600 then toString (secs / 60) ++ "m" ++ toString (secs % 60) ++ "s"
  else toString (secs / 3600) ++ "h" ++ toString (secs % 3600 / 60) ++ "m" ++ toString (secs % 60) ++ "s"

/-- The progress message `"Retrying in %v... (attempt %d/%d)"` emitted before
a retry (clone.go line 182): formatted backoff duration, `attempt+1`, and
`opts.MaxRetries`. -/
def retryMsg (backoffSecs : Nat) (attemptNo : Nat) (maxRetries : Int) : String :=
  "Retrying in " ++ goDuration backoffSecs ++ "... (attempt " ++ toString attemptNo
    ++ "/" ++ toString maxRetries ++ ")"

/-- The error recorded for one failed clone attempt:
`fmt.Errorf("clone failed: %w\nOutput: %s", err, output)`. -/
def cloneAttemptErr (e : GoErr) (output : String) : GoErr :=
  .wrapped "clone failed: " e ("\nOutput: " ++ output)

/-- The progress message `"Clone attempt %d failed: %v"` (clone.go line 210). -/
def cloneFailMsg (attemptNo : Nat) (lastErr : GoErr) : String :=
  "Clone attempt " ++ toString attemptNo ++ " failed: " ++ lastErr.render

/-- The error returned when all attempts exhaust:
`fmt.Errorf("failed to clone after %d attempts: %w", opts.MaxRetries, lastErr)`
(clone.go line 215).  Note the count carried is `opts.MaxRetries`, and
`lastErr` may still be nil when the loop body never ran. -/
def exhaustedErr (maxRetries : Int) (lastErr : Option GoErr) : GoErr :=
  match lastErr with
  | some e => .wrapped ("failed to clone after " ++ toString maxRetries ++ " attempts: ") e ""
  | none => .wrappedNil ("failed to clone after " ++ toString maxRetries ++ " attempts: ") ""

/-- The `git reset --hard` argument chosen by `fetchAndUpdate`: the explicit
branch ref if a branch is set, else `origin/HEAD`. -/
def resetRef (branch : String) : String :=
  if branch ≠ "" then "origin/" ++ branch else "origin/HEAD"

/-- `fetchAndUpdate` from clone.go: report progress, change into the target
directory, `git fetch --all --prune`, then `git reset --hard` to the resolved
ref; any step failure is returned wrapped, a full success reports an updated
message and returns nil. -/
def fetchAndUpdate (fenv : FetchEnv) (opts : CloneOptions) : Option GoErr × List Event :=
  match fenv.getwdErr with
  | some e => (some (.wrapped "failed to get current directory: " e ""),
      [.progress (updateMsg opts.url)])
  | none =>
  match fenv.chdirErr with
  | some e => (some (.wrapped "failed to change to repository directory: " e ""),
      [.progress (updateMsg opts.url)])
  | none =>
  match fenv.fetchErr with
  | some (e, out) => (some (.wrapped "failed to fetch updates: " e ("\nOutput: " ++ out)),
      [.progress (updateMsg opts.url), .gitFetch])
  | none =>
  match fenv.resetErr with
  | some (e, out) => (some (.wrapped "failed to reset branch: " e ("\nOutput: " ++ out)),
      [.progress (updateMsg opts.url), .gitFetch, .gitReset (resetRef opts.branch)])
  | none => (none,
      [.progress (updateMsg opts.url), .gitFetch, .gitReset (resetRef opts.branch),
       .progress (updatedMsg opts.url)])

/-- `handleExistingRepo` from clone.go: nothing to do when the target is not a
git working copy; otherwise skip (returning the "already exists" error),
overwrite (`os.RemoveAll`, wrapping its failure), or fetch-and-update. -/
def handleExistingRepo (renv : ResolverEnv) (opts : CloneOptions) : Option GoErr × List Event :=
  if renv.isGitRepo then
    match opts.existingRepo with
    | .skipExisting =>
        (some (.base ("repository already exists: " ++ opts.targetDir)),
         [.progress (skipMsg opts.url)])
    | .overwriteExisting =>
        match renv.removeErr with
        | some e =>
            (some (.wrapped "failed to remove existing repository: " e ""),
             [.progress (removeMsg opts.targetDir), .removeAll opts.targetDir])
        | none => (none, [.progress (removeMsg opts.targetDir), .removeAll opts.targetDir])
    | .fetchOnly => fetchAndUpdate renv.fetch opts
  else (none, [])

/-- Events performed at the top of a clone attempt (clone.go lines 179-186):
nothing on attempt 0; on attempt > 0 the retry progress message followed by a
sleep of `1 << (attempt-1)` seconds. -/
def backoffEvents (maxRetries : Int) (attempt : Nat) : List Event :=
  if attempt = 0 then []
  else [.progress (retryMsg (2 ^ (attempt - 1)) (attempt + 1) maxRetries),
        .sleep (2 ^ (attempt - 1))]

/-- The retry loop body of `CloneRepository` (clone.go lines 178-213), with
the remaining number of loop iterations as fuel.  `attempt` is the Go loop
counter, `lastErr` the error recorded by the previous failed attempt.  When
the fuel runs out the loop exits and the exhaustion error is built. -/
def cloneLoop (env : CloneEnv) (opts : CloneOptions) :
    Nat → Nat → Option GoErr → Option GoErr × List Event
  | 0, _, lastErr => (some (exhaustedErr opts.maxRetries lastErr), [])
  | fuel + 1, attempt, _ =>
    match env.cloneErr attempt with
    | none =>
        (none, backoffEvents opts.maxRetries attempt ++
          [.gitClone opts.branch opts.url opts.targetDir, .progress (clonedMsg opts.url)])
    | some (e, out) =>
        let le := cloneAttemptErr e out
        let rest := cloneLoop env opts fuel (attempt + 1) (some le)
        (rest.1, backoffEvents opts.maxRetries attempt ++
          [.gitClone opts.branch opts.url opts.targetDir,
           .progress (cloneFailMsg (attempt + 1) le)] ++ rest.2)

/-- The retry loop as entered by `CloneRepository`: the Go loop
`for attempt := 0; attempt <= opts.MaxRetries; attempt++` runs exactly
`(opts.MaxRetries + 1).toNat` iterations (zero when `MaxRetries < 0`),
starting at attempt 0 with a nil `lastErr`. -/
def cloneRetryLoop (env : CloneEnv) (opts : CloneOptions) : Option GoErr × List Event :=
  cloneLoop env opts (opts.maxRetries + 1).toNat 0 none

/-- `CloneRepository` from clone.go: create the target directory (fatal on
failure), run the existing-target resolver (a skip-policy error is turned
into a nil return, any other resolver error is returned as is), then run the
bounded retry loop. -/
def CloneRepository (env : CloneEnv) (opts : CloneOptions) : Option GoErr × List Event :=
  match env.mkdirErr with
  | some e => (some (.wrapped "failed to create target directory: " e ""), [])
  | none =>
    let r := handleExistingRepo env.resolver opts
    match r.1 with
    | some e =>
        if opts.existingRepo = .skipExisting then (none, r.2)
        else (some e, r.2)
    | none =>
        let c := cloneRetryLoop env opts
        (c.1, r.2 ++ c.2)

/-- Construction of the `CloneResult` sent by each worker goroutine of
`CloneRepositories` (clone.go lines 237-241). -/
def mkCloneResult (opts : CloneOptions) (r : Option GoErr × List Event) : CloneResult :=
  { repoURL := opts.url, success := r.1.isNone, error := r.1 }

/-- `CloneRepositories` from clone.go, sequentialized: every submitted job is
paired with its own effect oracle, each job runs `CloneRepository` and
contributes exactly one `CloneResult`; the returned list is the content of
the results channel at the moment it is closed (after `wg.Wait()`). -/
def CloneRepositories (jobs : List (CloneEnv × CloneOptions)) : List CloneResult :=
  jobs.map (fun j => mkCloneResult j.2 (CloneRepository j.1 j.2))

/-- Number of `git clone` invocations in a trace. -/
def numClones : List Event → Nat
  | [] => 0
  | .gitClone _ _ _ :: es => numClones es + 1
  | _ :: es => numClones es

/-- Number of `os.RemoveAll` invocations in a trace. -/
def numRemoves : List Event → Nat
  | [] => 0
  | .removeAll _ :: es => numRemoves es + 1
  | _ :: es => numRemoves es

/-- The backoff sleeps of a trace, in order, in seconds. -/
def sleepsOf : List Event → List Nat
  | [] => []
  | .sleep n :: es => n :: sleepsOf es
  | _ :: es => sleepsOf es

/-- The progress-callback messages of a trace, in order. -/
def progressMsgs : List Event → List String
  | [] => []
  | .progress m :: es => m :: progressMsgs es
  | _ :: es => progressMsgs es

/-- `RepositoryStatus` from repository.go. -/
inductive RepositoryStatus
  | pending
  | cloning
  | retrying
  | success
  | failed
  | skipped
  | updating
deriving DecidableEq, Repr

/-- `Repository` from repository.go (the per-target mutex is implicit: in the
embedding every update is an atomic function application). -/
structure Repository where
  name : String
  organization : String
  url : String
  branch : String
  status : RepositoryStatus
  error : Option GoErr
  progress : String
  existingRepo : ExistingRepoStrategy
deriving Repr

/-- `filepath.Join(baseDir, org, name)` for the clean path components the
manager produces (path cleaning is irrelevant for them). -/
def filepathJoin (a b c : String) : String :=
  a ++ "/" ++ b ++ "/" ++ c

/-- The `CloneOptions` built by `CloneAll` for one repository
(repository.go lines 121-128): defaults with the repository's URL, derived
target directory, branch and strategy. -/
def buildOpts (baseDir : String) (repo : Repository) : CloneOptions :=
  { DefaultCloneOptions with
      url := repo.url
      targetDir := filepathJoin baseDir repo.organization repo.name
      branch := repo.branch
      existingRepo := repo.existingRepo }

/-- The progress callback wired by `CloneAll` (repository.go lines 129-144):
store the message, then classify it by substring — a message containing
"Updating" marks the repository Updating, else one containing "Skipping"
marks it Skipped, anything else marks it Cloning. -/
def applyProgress (repo : Repository) (status : String) : Repository :=
  if goContains status "Updating" then
    { repo with progress := status, status := .updating }
  else if goContains status "Skipping" then
    { repo with progress := status, status := .skipped }
  else
    { repo with progress := status, status := .cloning }

/-- The outcome-processing step of `CloneAll` (repository.go lines 164-176):
a successful result sets Success unless the status is already Skipped; a
failed result sets Failed and stores the carried error. -/
def applyOutcome (repo : Repository) (result : CloneResult) : Repository :=
  if result.success then
    if repo.status = .skipped then repo
    else { repo with status := .success }
  else
    { repo with status := .failed, error := result.error }

/-- The matching loop of `CloneAll` (repository.go lines 150-177): walk the
registered repositories, update the first one whose URL equals the outcome's
URL, leave the rest untouched; if no repository matches, do nothing. -/
def processOutcome (result : CloneResult) : List Repository → List Repository
  | [] => []
  | r :: rs =>
      if r.url = result.repoURL then applyOutcome r result :: rs
      else r :: processOutcome result rs

/-- The `CloneResult` produced for one target of a `CloneAll` run. -/
def targetOutcome (env : CloneEnv) (baseDir : String) (repo : Repository) : CloneResult :=
  mkCloneResult (buildOpts baseDir repo) (CloneRepository env (buildOpts baseDir repo))

/-- The repository state after applying a list of progress messages in order. -/
def afterMsgs (r : Repository) : List String → Repository
  | [] => r
  | m :: ms => afterMsgs (applyProgress r m) ms

/-- The successive repository states seen while applying a list of progress
messages (initial state included). -/
def statesFrom (r : Repository) : List String → List Repository
  | [] => [r]
  | m :: ms => r :: statesFrom (applyProgress r m) ms

/-- The full per-target run of `CloneAll` for one repository: all progress
updates of its executor run in order, then the outcome update.  (Within one
target, progress events strictly precede the outcome: the worker sends its
result only after `CloneRepository` returns.) -/
def runTarget (env : CloneEnv) (baseDir : String) (repo : Repository) : Repository :=
  applyOutcome
    (afterMsgs repo (progressMsgs (CloneRepository env (buildOpts baseDir repo)).2))
    (targetOutcome env baseDir repo)

/-- Every state the manager stores for one target during its run, in order:
the initial state, the state after each progress update, and the state after
the outcome update. -/
def targetStates (env : CloneEnv) (baseDir : String) (repo : Repository) : List Repository :=
  statesFrom repo (progressMsgs (CloneRepository env (buildOpts baseDir repo)).2)
    ++ [runTarget env baseDir repo]

/-- The status component of `targetStates`. -/
def statusSeq (env : CloneEnv) (baseDir : String) (repo : Repository) : List RepositoryStatus :=
  (targetStates env baseDir repo).map (fun r => r.status)

/-- Abstract state of the worker pool of `CloneRepositories`: how many
submitted jobs have not yet acquired a semaphore slot, how many are between
acquire and release (running `CloneRepository`), and how many have released. -/
structure PoolState where
  pending : Nat
  running : Nat
  done : Nat
deriving DecidableEq, Repr

/-- One scheduler step of the worker pool (clone.go lines 229-250): a pending
job may acquire a slot only while fewer than `N` slots are held
(`c.semaphore <- struct{}{}` on a channel of capacity `N`); a running job may
always release its slot (the release is deferred, hence unconditional on
success, failure, or cancellation). -/
inductive PoolStep (N : Nat) : PoolState → PoolState → Prop
  | acquire (p r d : Nat) : r < N → PoolStep N ⟨p + 1, r, d⟩ ⟨p, r + 1, d⟩
  | release (p r d : Nat) : PoolStep N ⟨p, r + 1, d⟩ ⟨p, r, d + 1⟩

/-- Pool states reachable from the submission of `total` jobs (all pending,
none running, none done) under any interleaving of scheduler steps. -/
inductive PoolReachable (N total : Nat) : PoolState → Prop
  | init : PoolReachable N total ⟨total, 0, 0⟩
  | step {s t : PoolState} : PoolReachable N total s → PoolStep N s t → PoolReachable N total t

/-- Fetch oracle in which every external step succeeds. -/
def fenvOK : FetchEnv := ⟨none, none, none, none⟩

/-- FetchOnly options used for the C1 evaluations. -/
def opts1 : CloneOptions :=
  { DefaultCloneOptions with url := "u", targetDir := "d", existingRepo := .fetchOnly }

/-- World for C1 in which the target is a working copy, the fetch-and-update
succeeds, and every `git clone` attempt fails. -/
def env1s : CloneEnv :=
  { mkdirErr := none
    resolver := { isGitRepo := true, removeErr := none, fetch := fenvOK }
    cloneErr := fun _ => some (.base "fatal: destination path exists", "out") }

/-- World for C1 in which the target is a working copy and the fetch step of
the update fails. -/
def env1f : CloneEnv :=
  { mkdirErr := none
    resolver := { isGitRepo := true, removeErr := none,
                  fetch := ⟨none, none, some (.base "network down", "fout"), none⟩ }
    cloneErr := fun _ => some (.base "x", "y") }

/-- Options used by the C2 witness. -/
def opts2 : CloneOptions := { DefaultCloneOptions with url := "u2", targetDir := "d2" }

/-- World used by the C2 witness (clean directory, first clone succeeds). -/
def env2 : CloneEnv :=
  { mkdirErr := none
    resolver := { isGitRepo := false, removeErr := none, fetch := fenvOK }
    cloneErr := fun _ => none }

/-- Options used by the C3 witness (default `MaxRetries = 3`). -/
def opts3 : CloneOptions := { DefaultCloneOptions with url := "u3", targetDir := "d3" }

/-- World used by the C3 witness: every clone attempt fails. -/
def env3 : CloneEnv :=
  { mkdirErr := none
    resolver := { isGitRepo := false, removeErr := none, fetch := fenvOK }
    cloneErr := fun _ => some (.base "exit status 128", "boom") }

/-- SkipExisting target whose source URL contains the substring "Updating"
(C4 counterexample input). -/
def repo4U : Repository :=
  { name := "n", organization := "o", url := "Updating", branch := ""
    status := .pending, error := none, progress := "", existingRepo := .skipExisting }

/-- SkipExisting target with an ordinary source URL (C4 witness input). -/
def repo4W : Repository :=
  { name := "n", organization := "o", url := "https://github.com/o/r", branch := ""
    status := .pending, error := none, progress := "", existingRepo := .skipExisting }

/-- World for C4: the target directory already holds a working copy. -/
def env4 : CloneEnv :=
  { mkdirErr := none
    resolver := { isGitRepo := true, removeErr := none, fetch := fenvOK }
    cloneErr := fun _ => some (.base "exit status 128", "boom") }

/-- Options used for the C5 evaluation (default `MaxRetries = 3`). -/
def opts5 : CloneOptions := { DefaultCloneOptions with url := "u5", targetDir := "d5" }

/-- World used for the C5 evaluation: clean directory, every attempt fails. -/
def env5 : CloneEnv :=
  { mkdirErr := none
    resolver := { isGitRepo := false, removeErr := none, fetch := fenvOK }
    cloneErr := fun _ => some (.base "exit status 1", "out") }

/-- Registered repositories used by the C6 witness. -/
def repo6A : Repository :=
  { name := "a", organization := "o", url := "urlA", branch := ""
    status := .pending, error := none, progress := "", existingRepo := .skipExisting }

/-- Second registered repository for the C6 witness. -/
def repo6B : Repository :=
  { name := "b", organization := "o", url := "urlB", branch := ""
    status := .pending, error := none, progress := "", existingRepo := .skipExisting }

/-- Failed outcome for the C6 witness, carrying an error, joined on `urlA`. -/
def res6 : CloneResult := { repoURL := "urlA", success := false, error := some (.base "x") }

/-- Pending target used for the C7 evaluations. -/
def repo7c : Repository :=
  { name := "n", organization := "o", url := "u", branch := ""
    status := .pending, error := none, progress := "", existingRepo := .skipExisting }

/-- World for the C7 counterexample: clean directory, every clone attempt
fails with a captured git output that contains the substring "Skipping". -/
def env7c : CloneEnv :=
  { mkdirErr := none
    resolver := { isGitRepo := false, removeErr := none, fetch := fenvOK }
    cloneErr := fun _ => some (.base "exit status 128", "Skipping") }

/-- Repository state already holding terminal status Skipped (C7 witness). -/
def repo7s : Repository :=
  { name := "s", organization := "o", url := "us", branch := ""
    status := .skipped, error := none, progress := "", existingRepo := .skipExisting }

/-- Successful outcome used by the C7 witness. -/
def res7ok : CloneResult := { repoURL := "us", success := true, error := none }

/-- OverwriteExisting options used by the C9 witness. -/
def opts9 : CloneOptions :=
  { DefaultCloneOptions with url := "u9", targetDir := "d9", existingRepo := .overwriteExisting }

/-- World for C9: the directory holds a working copy and `os.RemoveAll`
fails. -/
def env9 : CloneEnv :=
  { mkdirErr := none
    resolver := { isGitRepo := true, removeErr := some (.base "permission denied"), fetch := fenvOK }
    cloneErr := fun _ => none }

/-- Options with a negative `MaxRetries`, used by the C10 witness. -/
def opts10 : CloneOptions :=
  { DefaultCloneOptions with url := "u10", targetDir := "d10", maxRetries := -1 }

/-- World for C10: directory creation succeeds and the resolver finds no
working copy (returns no skip and no error). -/
def env10 : CloneEnv :=
  { mkdirErr := none
    resolver := { isGitRepo := false, removeErr := none, fetch := fenvOK }
    cloneErr := fun _ => some (.base "never reached", "out") }

lemma numClones_append (l1 l2 : List Event) :
    numClones (l1 ++ l2) = numClones l1 + numClones l2 := by
  induction l1 with
  | nil => simp [numClones]
  | cons e es ih => cases e <;> simp [numClones, ih, Nat.add_right_comm]

lemma sleepsOf_append (l1 l2 : List Event) :
    sleepsOf (l1 ++ l2) = sleepsOf l1 ++ sleepsOf l2 := by
  induction l1 with
  | nil => simp [sleepsOf]
  | cons e es ih => cases e <;> simp [sleepsOf, ih]

lemma numClones_backoffEvents (mr : Int) (a : Nat) :
    numClones (backoffEvents mr a) = 0 := by
  unfold backoffEvents; split <;> simp [numClones]

lemma sleepsOf_backoffEvents (mr : Int) (a : Nat) :
    sleepsOf (backoffEvents mr a) = if a = 0 then [] else [2 ^ (a - 1)] := by
  unfold backoffEvents; split <;> simp_all [sleepsOf]

lemma fetchAndUpdate_no_clone (fenv : FetchEnv) (opts : CloneOptions) :
    numClones (fetchAndUpdate fenv opts).2 = 0 ∧ sleepsOf (fetchAndUpdate fenv opts).2 = [] := by
  rcases fenv with ⟨g, c, f, r⟩
  rcases g with _ | g <;> rcases c with _ | c <;> rcases f with _ | ⟨fe, fo⟩ <;>
    rcases r with _ | ⟨re, ro⟩ <;> simp [fetchAndUpdate, numClones, sleepsOf]

lemma handleExistingRepo_no_clone (renv : ResolverEnv) (opts : CloneOptions) :
    numClones (handleExistingRepo renv opts).2 = 0 := by
  unfold handleExistingRepo
  split
  · split
    · simp [numClones]
    · split <;> simp [numClones]
    · exact (fetchAndUpdate_no_clone _ _).1
  · simp [numClones]

lemma map_getElem {α β : Type} (f : α → β) :
    ∀ (l : List α) (i : Nat), (List.map f l)[i]? = Option.map f l[i]? := by
  intro l
  induction l with
  | nil => intro i; simp
  | cons a t ih =>
      intro i
      cases i with
      | zero => simp
      | succ k => rw [List.map_cons, List.getElem?_cons_succ, List.getElem?_cons_succ]; exact ih k

lemma numClones_cloneLoop (env : CloneEnv) (opts : CloneOptions)
    (hfail : ∀ j, (env.cloneErr j).isSome = true) :
    ∀ (fuel a : Nat) (le : Option GoErr), numClones (cloneLoop env opts fuel a le).2 = fuel := by
  intro fuel
  induction fuel with
  | zero => intro a le; simp [cloneLoop, numClones]
  | succ n ih =>
      intro a le
      obtain ⟨⟨e, out⟩, hp⟩ := Option.isSome_iff_exists.mp (hfail a)
      simp [cloneLoop, hp, numClones_append, numClones_backoffEvents, numClones, ih]

lemma sleepsOf_cloneLoop (env : CloneEnv) (opts : CloneOptions)
    (hfail : ∀ j, (env.cloneErr j).isSome = true) :
    ∀ (fuel a : Nat) (le : Option GoErr), 1 ≤ a →
      sleepsOf (cloneLoop env opts fuel a le).2 =
        (List.range fuel).map (fun i => 2 ^ (a - 1 + i)) := by
  intro fuel
  induction fuel with
  | zero => intro a le ha; simp [cloneLoop, sleepsOf]
  | succ n ih =>
      intro a le ha
      obtain ⟨⟨e, out⟩, hp⟩ := Option.isSome_iff_exists.mp (hfail a)
      have hrec := ih (a + 1) (some (cloneAttemptErr e out)) (by omega)
      simp [cloneLoop, hp, sleepsOf_append, sleepsOf_backoffEvents, sleepsOf, hrec,
        List.range_succ_eq_map, Nat.pos_iff_ne_zero.mp ha, List.map_map]
      intro i _
      omega

lemma sleepsOf_cloneRetryLoop (env : CloneEnv) (opts : CloneOptions)
    (h0 : 0 ≤ opts.maxRetries)
    (hfail : ∀ j, (env.cloneErr j).isSome = true) :
    sleepsOf (cloneRetryLoop env opts).2 =
      (List.range opts.maxRetries.toNat).map (fun k => 2 ^ k) := by
  have hn : (opts.maxRetries + 1).toNat = opts.maxRetries.toNat + 1 := by omega
  unfold cloneRetryLoop
  rw [hn]
  obtain ⟨⟨e, out⟩, hp⟩ := Option.isSome_iff_exists.mp (hfail 0)
  have hrec := sleepsOf_cloneLoop env opts hfail opts.maxRetries.toNat 1
    (some (cloneAttemptErr e out)) (by omega)
  simp [cloneLoop, hp, sleepsOf_append, sleepsOf_backoffEvents, sleepsOf, hrec]

lemma retry_events_mem_cloneLoop (env : CloneEnv) (opts : CloneOptions)
    (hfail : ∀ j, (env.cloneErr j).isSome = true) :
    ∀ (fuel a : Nat) (le : Option GoErr) (k : Nat), 0 < k → a ≤ k → k < a + fuel →
      Event.progress (retryMsg (2 ^ (k - 1)) (k + 1) opts.maxRetries)
          ∈ (cloneLoop env opts fuel a le).2 ∧
        Event.sleep (2 ^ (k - 1)) ∈ (cloneLoop env opts fuel a le).2 := by
  intro fuel
  induction fuel with
  | zero => intro a le k hk h1 h2; omega
  | succ n ih =>
      intro a le k hk h1 h2
      obtain ⟨⟨e, out⟩, hp⟩ := Option.isSome_iff_exists.mp (hfail a)
      rcases eq_or_lt_of_le h1 with rfl | hlt
      · constructor <;>
          simp [cloneLoop, hp, backoffEvents, Nat.pos_iff_ne_zero.mp hk, List.mem_append]
      · have hrest := ih (a + 1) (some (cloneAttemptErr e out)) k hk (by omega) (by omega)
        constructor <;> · simp [cloneLoop, hp, List.mem_append]; tauto

lemma applyProgress_status (r : Repository) (m : String) :
    (applyProgress r m).status = .updating ∨ (applyProgress r m).status = .skipped ∨
      (applyProgress r m).status = .cloning := by
  unfold applyProgress
  split
  · simp
  · split <;> simp

lemma statesFrom_no_terminal (msgs : List String) :
    ∀ r : Repository, r.status ≠ .success → r.status ≠ .failed →
      ∀ s ∈ statesFrom r msgs, s.status ≠ .success ∧ s.status ≠ .failed := by
  induction msgs with
  | nil =>
      intro r h1 h2 s hs
      simp [statesFrom] at hs
      subst hs
      exact ⟨h1, h2⟩
  | cons m ms ih =>
      intro r h1 h2 s hs
      simp only [statesFrom, List.mem_cons] at hs
      rcases hs with rfl | hs
      · exact ⟨h1, h2⟩
      · rcases applyProgress_status r m with h | h | h <;>
          exact ih (applyProgress r m) (by simp [h]) (by simp [h]) s hs

lemma skipMsg_contains_skipping (url : String) :
    goContains (skipMsg url) "Skipping" = true := by
  obtain ⟨d⟩ := url
  rfl

lemma processOutcome_spec (result : CloneResult) :
    ∀ (repos : List Repository) (i : Nat) (hi : i < repos.length),
      (∀ j (hj : j < i), (repos.get ⟨j, Nat.lt_trans hj hi⟩).url ≠ result.repoURL) →
      (repos.get ⟨i, hi⟩).url = result.repoURL →
      processOutcome result repos = repos.set i (applyOutcome (repos.get ⟨i, hi⟩) result) := by
  intro repos
  induction repos with
  | nil => intro i hi; simp at hi
  | cons r rs ih =>
      intro i hi hfirst hmatch
      cases i with
      | zero =>
          have hm2 : r.url = result.repoURL := hmatch
          simp [processOutcome, hm2, List.set]
      | succ k =>
          have h0 : r.url ≠ result.repoURL := hfirst 0 (Nat.succ_pos k)
          have hk : k < rs.length := by
            simp at hi
            omega
          have hfirst2 : ∀ j (hj : j < k), (rs.get ⟨j, Nat.lt_trans hj hk⟩).url ≠ result.repoURL :=
            fun j hj => hfirst (j + 1) (by omega)
          have hmatch2 : (rs.get ⟨k, hk⟩).url = result.repoURL := hmatch
          simp [processOutcome, h0, ih k hk hfirst2 hmatch2, List.set]

lemma poolReachable_sum (N total : Nat) :
    ∀ s : PoolState, PoolReachable N total s → s.pending + s.running + s.done = total := by
  intro s h
  induction h with
  | init => rfl
  | step _ hstep ih =>
      cases hstep with
      | acquire p r d hr =>
          have ih2 : p + 1 + r + d = total := ih
          show p + (r + 1) + d = total
          omega
      | release p r d =>
          have ih2 : p + (r + 1) + d = total := ih
          show p + r + (d + 1) = total
          omega

/-- C2: for every list of submitted clone jobs, the result stream delivers
exactly one outcome per submitted job — as many results as jobs, the i-th
result being exactly the outcome of the i-th job — and the stream is closed
only after every submitted job has produced its outcome: in every reachable
pool state the submitted jobs are partitioned among pending, running and
done, so `wg.Wait()` (pending = running = 0) forces done = total. -/
theorem cloneRepositories_one_outcome_per_job (jobs : List (CloneEnv × CloneOptions)) :
    (CloneRepositories jobs).length = jobs.length ∧
    (∀ i : Nat, (CloneRepositories jobs)[i]? =
      Option.map (fun j => mkCloneResult j.2 (CloneRepository j.1 j.2)) jobs[i]?) ∧
    (∀ (N total : Nat) (s : PoolState), PoolReachable N total s →
      s.pending + s.running + s.done = total) :=
  ⟨List.length_map _ _, fun i => map_getElem _ jobs i,
    fun N total s h => poolReachable_sum N total s h⟩

/-- C2 witness: a concrete one-job run produces exactly one outcome, and the
initial pool state of a one-job submission accounts for that job. -/
theorem cloneRepositories_one_outcome_per_job_witness :
    (CloneRepositories [(env2, opts2)]).length = 1 ∧ (1 : Nat) + 0 + 0 = 1 :=
  ⟨(cloneRepositories_one_outcome_per_job [(env2, opts2)]).1,
    (cloneRepositories_one_outcome_per_job [(env2, opts2)]).2.2 1 1 ⟨1, 0, 0⟩ PoolReachable.init⟩

/-- C3: with maxRetries ≥ 0 and an always-failing clone oracle, the retry
loop performs exactly maxRetries + 1 clone attempts; its backoff sleeps are
2^0, 2^1, ..., 2^(maxRetries-1) seconds in that order (so 1s, 2s, 4s for the
default maxRetries = 3); and before every attempt k > 0 the loop emits the
progress message naming the attempt number and the formatted wait duration
and sleeps 2^(k-1) seconds. -/
theorem clone_retry_backoff_schedule (opts : CloneOptions) (env : CloneEnv)
    (h0 : 0 ≤ opts.maxRetries)
    (hfail : ∀ j, (env.cloneErr j).isSome = true) :
    numClones (cloneRetryLoop env opts).2 = (opts.maxRetries + 1).toNat ∧
    sleepsOf (cloneRetryLoop env opts).2 =
      (List.range opts.maxRetries.toNat).map (fun k => 2 ^ k) ∧
    ∀ k : Nat, 0 < k → k ≤ opts.maxRetries.toNat →
      Event.progress (retryMsg (2 ^ (k - 1)) (k + 1) opts.maxRetries)
          ∈ (cloneRetryLoop env opts).2 ∧
        Event.sleep (2 ^ (k - 1)) ∈ (cloneRetryLoop env opts).2 := by
  refine ⟨numClones_cloneLoop env opts hfail _ 0 none,
    sleepsOf_cloneRetryLoop env opts h0 hfail, ?_⟩
  intro k hk hkm
  exact retry_events_mem_cloneLoop env opts hfail (opts.maxRetries + 1).toNat 0 none k hk
    (by omega) (by omega)

/-- C3 witness: with the default maxRetries = 3 and an always-failing oracle,
the loop makes 4 attempts with backoff sleeps 1s, 2s, 4s in order. -/
theorem clone_retry_backoff_schedule_witness :
    numClones (cloneRetryLoop env3 opts3).2 = 4 ∧
      sleepsOf (cloneRetryLoop env3 opts3).2 = [1, 2, 4] := by
  have h := clone_retry_backoff_schedule opts3 env3 (by decide) (fun j => rfl)
  exact ⟨h.1, by rw [h.2.1]; rfl⟩

/-- C5 (code-bug exhibit): with the default maxRetries = 3 and every attempt
failing, the loop performs 4 clone attempts, yet the returned failure is
`fmt.Errorf("failed to clone after %d attempts: %w", opts.MaxRetries, lastErr)`,
whose carried count renders as "3" — the configured maxRetries, not the
4 attempts actually performed that the claim and spec require. -/
theorem clone_exhaustion_attempt_miscount :
    numClones (CloneRepository env5 opts5).2 = 4 ∧
    (CloneRepository env5 opts5).1 =
      some (.wrapped "failed to clone after 3 attempts: "
        (.wrapped "clone failed: " (.base "exit status 1") "\nOutput: out") "") := by
  decide

/-- C8: in every pool state reachable from a submission of `total` jobs under
concurrency cap `N`, at most `N` executors are running simultaneously: a job
acquires one of the `N` semaphore slots before running `CloneRepository`
(the `acquire` step is enabled only while fewer than `N` slots are held) and
releases it unconditionally on completion (the `release` step has no
precondition — the Go release is deferred, so it happens on success, failure,
or cancellation alike). -/
theorem governor_concurrency_bound (N total : Nat) (s : PoolState)
    (h : PoolReachable N total s) : s.running ≤ N := by
  induction h with
  | init => exact Nat.zero_le N
  | step _ hstep ih =>
      cases hstep with
      | acquire p r d hr => exact hr
      | release p r d => exact Nat.le_of_succ_le ih

/-- C8 witness: with cap 2 and 3 jobs, the state reached by two acquisitions
is reachable and satisfies the bound. -/
theorem governor_concurrency_bound_witness :
    PoolReachable 2 3 ⟨1, 2, 0⟩ ∧ (PoolState.mk 1 2 0).running ≤ 2 := by
  have h : PoolReachable 2 3 ⟨1, 2, 0⟩ :=
    PoolReachable.step
      (PoolReachable.step PoolReachable.init (PoolStep.acquire 2 0 0 (by omega)))
      (PoolStep.acquire 1 1 0 (by omega))
  exact ⟨h, governor_concurrency_bound 2 3 _ h⟩

/-- C10: when MaxRetries < 0 (directory creation succeeded and the resolver
returned no skip and no error), the retry loop body never executes — no
clone is attempted — and `CloneRepository` returns a non-nil failure whose
wrapped underlying error is nil (`%w` applied to a nil `lastErr`). -/
theorem negative_max_retries_behavior (opts : CloneOptions) (env : CloneEnv)
    (hneg : opts.maxRetries < 0)
    (hm : env.mkdirErr = none)
    (hres : (handleExistingRepo env.resolver opts).1 = none) :
    (CloneRepository env opts).1 =
      some (.wrappedNil ("failed to clone after " ++ toString opts.maxRetries ++ " attempts: ") "") ∧
    Option.map GoErr.unwrap (CloneRepository env opts).1 = some none ∧
    numClones (CloneRepository env opts).2 = 0 := by
  have hfuel : (opts.maxRetries + 1).toNat = 0 := by omega
  have hloop : cloneRetryLoop env opts = (some (exhaustedErr opts.maxRetries none), []) := by
    unfold cloneRetryLoop
    rw [hfuel]
    rfl
  have h1 : CloneRepository env opts =
      (some (exhaustedErr opts.maxRetries none), (handleExistingRepo env.resolver opts).2 ++ []) := by
    simp [CloneRepository, hm, hres, hloop]
  rw [h1]
  refine ⟨rfl, rfl, ?_⟩
  simp [numClones_append, numClones, handleExistingRepo_no_clone]

/-- C10 witness: a concrete run with MaxRetries = -1 over a clean directory
returns the non-nil exhaustion failure wrapping nil, with zero clone
attempts. -/
theorem negative_max_retries_behavior_witness :
    (CloneRepository env10 opts10).1 =
      some (.wrappedNil "failed to clone after -1 attempts: " "") ∧
    Option.map GoErr.unwrap (CloneRepository env10 opts10).1 = some none ∧
    numClones (CloneRepository env10 opts10).2 = 0 := by
  have h := negative_max_retries_behavior opts10 env10 (by decide) rfl rfl
  exact ⟨h.1, h.2.1, h.2.2⟩

/-- C1 counterexample: with a FetchOnly target whose in-place update fully
succeeds, `CloneRepository` does not return that success directly — it still
enters the clone retry loop (4 clone attempts under an always-failing clone
oracle) and returns a failure; and with a FetchOnly target whose update
fails, the failure is returned directly with zero clone attempts and zero
backoff sleeps (the retry loop is never entered and the resolver is not
re-invoked), refuting both halves of the claim as stated. -/
theorem fetchOnly_outcome_counterexample :
    ((fetchAndUpdate env1s.resolver.fetch opts1).1 = none ∧
     numClones (CloneRepository env1s opts1).2 = 4 ∧
     (CloneRepository env1s opts1).1.isSome = true) ∧
    ((fetchAndUpdate env1f.resolver.fetch opts1).1.isSome = true ∧
     (CloneRepository env1f opts1).1.isSome = true ∧
     numClones (CloneRepository env1f opts1).2 = 0 ∧
     sleepsOf (CloneRepository env1f opts1).2 = []) := by
  decide

/-- C1 (amended): for a FetchOnly target whose directory holds a working
copy, a failed fetch-and-update is returned directly — no retry attempt, no
backoff sleep, no re-invocation of the resolver — while a successful
fetch-and-update does not return: `CloneRepository` proceeds into the clone
retry loop after it. -/
theorem fetchOnly_update_behavior (opts : CloneOptions) (env : CloneEnv)
    (hs : opts.existingRepo = .fetchOnly)
    (hm : env.mkdirErr = none)
    (hg : env.resolver.isGitRepo = true) :
    ((fetchAndUpdate env.resolver.fetch opts).1 = none →
        CloneRepository env opts =
          ((cloneRetryLoop env opts).1,
           (fetchAndUpdate env.resolver.fetch opts).2 ++ (cloneRetryLoop env opts).2)) ∧
    (∀ e : GoErr, (fetchAndUpdate env.resolver.fetch opts).1 = some e →
        CloneRepository env opts = (some e, (fetchAndUpdate env.resolver.fetch opts).2) ∧
        numClones (CloneRepository env opts).2 = 0 ∧
        sleepsOf (CloneRepository env opts).2 = []) := by
  have hres : handleExistingRepo env.resolver opts = fetchAndUpdate env.resolver.fetch opts := by
    simp [handleExistingRepo, hg, hs]
  constructor
  · intro hnone
    simp [CloneRepository, hm, hres, hnone]
  · intro e he
    have h1 : CloneRepository env opts = (some e, (fetchAndUpdate env.resolver.fetch opts).2) := by
      simp [CloneRepository, hm, hres, he, hs]
    refine ⟨h1, ?_, ?_⟩ <;> rw [h1]
    · exact (fetchAndUpdate_no_clone _ _).1
    · exact (fetchAndUpdate_no_clone _ _).2

/-- C1 witness: for the concrete FetchOnly run whose update succeeds,
`CloneRepository` is exactly the update trace followed by the full clone
retry loop. -/
theorem fetchOnly_update_behavior_witness :
    CloneRepository env1s opts1 =
      ((cloneRetryLoop env1s opts1).1,
       (fetchAndUpdate env1s.resolver.fetch opts1).2 ++ (cloneRetryLoop env1s opts1).2) :=
  (fetchOnly_update_behavior opts1 env1s rfl rfl rfl).1 rfl

/-- C4 counterexample: a SkipExisting target whose source URL is the string
"Updating" and whose directory holds a working copy ends the run with
terminal status Success, not Skipped — the manager classifies the skip
report "Skipping existing repository: Updating" as Updating (the "Updating"
substring check runs first), so the Skipped-preservation branch of the
outcome update never fires. -/
theorem skip_existing_status_counterexample :
    (runTarget env4 "base" repo4U).status = RepositoryStatus.success := by
  decide

/-- C4 (amended): for every SkipExisting target whose directory holds a
working copy, provided its skip report does not contain the substring
"Updating" (i.e. its URL does not), the executor returns a success-flagged
outcome whose only event is the skip report — no clone attempt, no removal —
and the target's terminal status is Skipped. -/
theorem skip_existing_behavior (baseDir : String) (repo : Repository) (env : CloneEnv)
    (hs : repo.existingRepo = .skipExisting)
    (hm : env.mkdirErr = none)
    (hg : env.resolver.isGitRepo = true)
    (hu : goContains (skipMsg repo.url) "Updating" = false) :
    (CloneRepository env (buildOpts baseDir repo)).1 = none ∧
    (CloneRepository env (buildOpts baseDir repo)).2 = [Event.progress (skipMsg repo.url)] ∧
    numClones (CloneRepository env (buildOpts baseDir repo)).2 = 0 ∧
    numRemoves (CloneRepository env (buildOpts baseDir repo)).2 = 0 ∧
    (runTarget env baseDir repo).status = .skipped := by
  have h1 : CloneRepository env (buildOpts baseDir repo) =
      (none, [Event.progress (skipMsg repo.url)]) := by
    simp [CloneRepository, hm, handleExistingRepo, hg, buildOpts, hs]
  refine ⟨by rw [h1], by rw [h1], by rw [h1]; rfl, by rw [h1]; rfl, ?_⟩
  simp [runTarget, targetOutcome, mkCloneResult, h1, progressMsgs, afterMsgs, applyProgress,
    hu, skipMsg_contains_skipping, applyOutcome]

/-- C4 witness: a concrete SkipExisting target with an ordinary URL over an
existing working copy yields a success-flagged outcome and terminal status
Skipped. -/
theorem skip_existing_behavior_witness :
    (CloneRepository env4 (buildOpts "base" repo4W)).1 = none ∧
    (runTarget env4 "base" repo4W).status = RepositoryStatus.skipped := by
  have h := skip_existing_behavior "base" repo4W env4 rfl rfl rfl (by decide)
  exact ⟨h.1, h.2.2.2.2⟩

/-- C6: the manager matches a completed outcome to the first registered
target whose source URL equals the outcome's URL (all earlier targets
mismatch, later duplicates are untouched — the result list only changes at
that first match); on a successful outcome the matched target becomes
Success unless it is already Skipped, which is preserved unchanged; on a
failed outcome it becomes Failed and stores the carried error. -/
theorem outcome_attribution_first_match (result : CloneResult) (repos : List Repository)
    (i : Nat) (hi : i < repos.length)
    (hfirst : ∀ j (hj : j < i), (repos.get ⟨j, Nat.lt_trans hj hi⟩).url ≠ result.repoURL)
    (hmatch : (repos.get ⟨i, hi⟩).url = result.repoURL) :
    processOutcome result repos = repos.set i (applyOutcome (repos.get ⟨i, hi⟩) result) ∧
    (result.success = true → (repos.get ⟨i, hi⟩).status = .skipped →
        applyOutcome (repos.get ⟨i, hi⟩) result = repos.get ⟨i, hi⟩) ∧
    (result.success = true → (repos.get ⟨i, hi⟩).status ≠ .skipped →
        (applyOutcome (repos.get ⟨i, hi⟩) result).status = .success) ∧
    (result.success = false →
        (applyOutcome (repos.get ⟨i, hi⟩) result).status = .failed ∧
        (applyOutcome (repos.get ⟨i, hi⟩) result).error = result.error) := by
  refine ⟨processOutcome_spec result repos i hi hfirst hmatch, ?_, ?_, ?_⟩
  · intro h1 h2
    simp only [List.get_eq_getElem] at h2
    simp [applyOutcome, h1, h2]
  · intro h1 h2
    simp only [List.get_eq_getElem] at h2
    simp [applyOutcome, h1, h2]
  · intro h1
    simp [applyOutcome, h1]

/-- C6 witness: a failed outcome joined on the first of two registered
targets updates exactly that target to Failed with the carried error. -/
theorem outcome_attribution_first_match_witness :
    processOutcome res6 [repo6A, repo6B] =
      [repo6A, repo6B].set 0 (applyOutcome ([repo6A, repo6B].get ⟨0, by decide⟩) res6) ∧
    (applyOutcome ([repo6A, repo6B].get ⟨0, by decide⟩) res6).status = RepositoryStatus.failed := by
  have h := outcome_attribution_first_match res6 [repo6A, repo6B] 0 (by decide)
    (fun j hj => by omega) rfl
  exact ⟨h.1, (h.2.2.2 rfl).1⟩

/-- C7 counterexample: a clean-directory run with default maxRetries = 3
whose every clone attempt fails with a captured git output containing the
substring "Skipping" drives the target's status through
Skipped → Cloning → ... → Skipped → Failed: the status reaches the terminal
value Skipped mid-run and then transitions again (to Cloning on the next
progress message, and finally to Failed on the outcome), refuting the claim
that no further transition occurs after a terminal status is reached. -/
theorem terminal_status_counterexample :
    statusSeq env7c "base" repo7c =
      [.pending, .skipped, .cloning, .skipped, .cloning, .skipped, .cloning, .skipped,
       .failed] := by
  decide

/-- C7 (amended): Success and Failed are terminal — no progress update ever
produces them (every state reached while folding the run's progress messages
from a Pending start has a status other than Success and Failed), so they
can only be assigned by the final outcome update, after which the run
performs no further update for that target; and a Skipped status is
preserved by a successful outcome.  (A Skipped status set by a stray
progress message containing "Skipping" is, however, not sticky: a later
progress message or a failed outcome overwrites it, per the
counterexample.) -/
theorem terminal_status_amended (baseDir : String) (repo : Repository) (env : CloneEnv)
    (hp : repo.status = .pending) :
    (∀ s ∈ statesFrom repo (progressMsgs (CloneRepository env (buildOpts baseDir repo)).2),
        s.status ≠ .success ∧ s.status ≠ .failed) ∧
    (∀ (r : Repository) (res : CloneResult), res.success = true → r.status = .skipped →
        (applyOutcome r res).status = .skipped) := by
  constructor
  · exact statesFrom_no_terminal _ repo (by simp [hp]) (by simp [hp])
  · intro r res h1 h2
    simp [applyOutcome, h1, h2]

/-- C7 witness: a successful outcome applied to a target already Skipped
leaves it Skipped. -/
theorem terminal_status_amended_witness :
    (applyOutcome repo7s res7ok).status = RepositoryStatus.skipped :=
  (terminal_status_amended "base" repo7c env7c rfl).2 repo7s res7ok rfl rfl

/-- C9: for an OverwriteExisting target whose directory holds a working copy
and whose recursive removal fails, `CloneRepository` returns the wrapped
cleanup failure immediately — its trace is just the removal report and the
removal invocation, with zero clone attempts and zero backoff sleeps — and
sibling targets are unaffected: each outcome of `CloneRepositories` is a
function of its own job and oracle alone. -/
theorem overwrite_cleanup_failure_fatal (opts : CloneOptions) (env : CloneEnv) (e : GoErr)
    (hs : opts.existingRepo = .overwriteExisting)
    (hm : env.mkdirErr = none)
    (hg : env.resolver.isGitRepo = true)
    (hr : env.resolver.removeErr = some e) :
    CloneRepository env opts =
      (some (.wrapped "failed to remove existing repository: " e ""),
       [Event.progress (removeMsg opts.targetDir), Event.removeAll opts.targetDir]) ∧
    numClones (CloneRepository env opts).2 = 0 ∧
    sleepsOf (CloneRepository env opts).2 = [] ∧
    ∀ (jobs : List (CloneEnv × CloneOptions)) (i : Nat),
      (CloneRepositories jobs)[i]? =
        Option.map (fun j => mkCloneResult j.2 (CloneRepository j.1 j.2)) jobs[i]? := by
  have h1 : CloneRepository env opts =
      (some (.wrapped "failed to remove existing repository: " e ""),
       [Event.progress (removeMsg opts.targetDir), Event.removeAll opts.targetDir]) := by
    simp [CloneRepository, hm, handleExistingRepo, hg, hs, hr]
  exact ⟨h1, by rw [h1]; rfl, by rw [h1]; rfl, fun jobs i => map_getElem _ jobs i⟩

/-- C9 witness: a concrete OverwriteExisting run whose removal fails returns
the wrapped cleanup failure with only the removal report and invocation in
its trace. -/
theorem overwrite_cleanup_failure_fatal_witness :
    CloneRepository env9 opts9 =
      (some (.wrapped "failed to remove existing repository: " (.base "permission denied") ""),
       [Event.progress (removeMsg opts9.targetDir), Event.removeAll opts9.targetDir]) :=
  (overwrite_cleanup_failure_fatal opts9 env9 (.base "permission denied") rfl rfl rfl rfl).1

end Zikrr
